import Mathlib

/-!
Shallow embedding of the document-rendering engine of the tech-blog
repository (`src/pages/[category]/[path].tsx`): the per-node-type render
table (`renderNode`), the anchor hasher (`createHash('md5')` over the
heading's first text value, hex digest), the category-reference resolver
(`categoryMap` lookup), and the hyperlink classifier (the
`/\/youtu.be\/(.+)$/` pattern).  Machine words are `Nat` reduced modulo
`2 ^ 32`; absent JavaScript fields are `Option`; a runtime `TypeError`
is an `Except.error`.
-/

/-- 32-bit mask used throughout the MD5 core. -/
def w32 : Nat := 2 ^ 32

/-- Left rotation of a 32-bit word (input assumed `< 2 ^ 32`). -/
def rotl32 (x n : Nat) : Nat := ((x <<< n) ||| (x >>> (32 - n))) % w32

/-- The 64 MD5 round constants `T[i] = floor(2^32 * |sin(i+1)|)` (RFC 1321). -/
def md5K : List Nat :=
  [0xd76aa478, 0xe8c7b756, 0x242070db, 0xc1bdceee,
   0xf57c0faf, 0x4787c62a, 0xa8304613, 0xfd469501,
   0x698098d8, 0x8b44f7af, 0xffff5bb1, 0x895cd7be,
   0x6b901122, 0xfd987193, 0xa679438e, 0x49b40821,
   0xf61e2562, 0xc040b340, 0x265e5a51, 0xe9b6c7aa,
   0xd62f105d, 0x02441453, 0xd8a1e681, 0xe7d3fbc8,
   0x21e1cde6, 0xc33707d6, 0xf4d50d87, 0x455a14ed,
   0xa9e3e905, 0xfcefa3f8, 0x676f02d9, 0x8d2a4c8a,
   0xfffa3942, 0x8771f681, 0x6d9d6122, 0xfde5380c,
   0xa4beea44, 0x4bdecfa9, 0xf6bb4b60, 0xbebfbc70,
   0x289b7ec6, 0xeaa127fa, 0xd4ef3085, 0x04881d05,
   0xd9d4d039, 0xe6db99e5, 0x1fa27cf8, 0xc4ac5665,
   0xf4292244, 0x432aff97, 0xab9423a7, 0xfc93a039,
   0x655b59c3, 0x8f0ccc92, 0xffeff47d, 0x85845dd1,
   0x6fa87e4f, 0xfe2ce6e0, 0xa3014314, 0x4e0811a1,
   0xf7537e82, 0xbd3af235, 0x2ad7d2bb, 0xeb86d391]

/-- The 64 MD5 per-round left-rotation amounts (RFC 1321). -/
def md5S : List Nat :=
  [7, 12, 17, 22, 7, 12, 17, 22, 7, 12, 17, 22, 7, 12, 17, 22,
   5, 9, 14, 20, 5, 9, 14, 20, 5, 9, 14, 20, 5, 9, 14, 20,
   4, 11, 16, 23, 4, 11, 16, 23, 4, 11, 16, 23, 4, 11, 16, 23,
   6, 10, 15, 21, 6, 10, 15, 21, 6, 10, 15, 21, 6, 10, 15, 21]

/-- The MD5 nonlinear function for round `i` applied to words `b c d`. -/
def md5F (i b c d : Nat) : Nat :=
  if i < 16 then (b &&& c) ||| ((b ^^^ (w32 - 1)) &&& d)
  else if i < 32 then (d &&& b) ||| ((d ^^^ (w32 - 1)) &&& c)
  else if i < 48 then b ^^^ c ^^^ d
  else c ^^^ (b ||| (d ^^^ (w32 - 1)))

/-- The MD5 message-word index for round `i`. -/
def md5G (i : Nat) : Nat :=
  if i < 16 then i
  else if i < 32 then (5 * i + 1) % 16
  else if i < 48 then (3 * i + 5) % 16
  else (7 * i) % 16

/-- One MD5 round: `m` yields the 16 message words of the current chunk. -/
def md5Round (m : Nat → Nat) (st : Nat × Nat × Nat × Nat) (i : Nat) :
    Nat × Nat × Nat × Nat :=
  match st with
  | (a, b, c, d) =>
      let f := (md5F i b c d + a + (md5K.getD i 0) + m (md5G i)) % w32
      (d, (b + rotl32 f (md5S.getD i 0)) % w32, b, c)

/-- Little-endian 32-bit word `j` of a 64-byte chunk. -/
def leWord (chunk : List Nat) (j : Nat) : Nat :=
  chunk.getD (4 * j) 0 + 256 * chunk.getD (4 * j + 1) 0 +
    65536 * chunk.getD (4 * j + 2) 0 + 16777216 * chunk.getD (4 * j + 3) 0

/-- Split a byte list into 64-byte chunks (`fuel` bounds the recursion). -/
def chunksAux : Nat → List Nat → List (List Nat)
  | 0, _ => []
  | _ + 1, [] => []
  | fuel + 1, l => l.take 64 :: chunksAux fuel (l.drop 64)

/-- Split a byte list into 64-byte chunks. -/
def chunks64 (l : List Nat) : List (List Nat) := chunksAux l.length l

/-- MD5 padding: append `0x80`, zeros to 56 mod 64, then the bit length
little-endian in 8 bytes. -/
def md5Pad (msg : List Nat) : List Nat :=
  let len := msg.length
  let zeros := (119 - len % 64) % 64
  let bitLen := (8 * len) % 2 ^ 64
  msg ++ [0x80] ++ List.replicate zeros 0 ++
    [bitLen % 256, bitLen / 256 % 256, bitLen / 2 ^ 16 % 256,
     bitLen / 2 ^ 24 % 256, bitLen / 2 ^ 32 % 256, bitLen / 2 ^ 40 % 256,
     bitLen / 2 ^ 48 % 256, bitLen / 2 ^ 56 % 256]

/-- Process one 64-byte chunk, updating the running MD5 state. -/
def md5Chunk (st : Nat × Nat × Nat × Nat) (chunk : List Nat) :
    Nat × Nat × Nat × Nat :=
  match st with
  | (a0, b0, c0, d0) =>
      match (List.range 64).foldl (md5Round (leWord chunk)) (a0, b0, c0, d0) with
      | (a, b, c, d) =>
          ((a0 + a) % w32, (b0 + b) % w32, (c0 + c) % w32, (d0 + d) % w32)

/-- The four little-endian bytes of a 32-bit word. -/
def leBytes4 (x : Nat) : List Nat :=
  [x % 256, x / 256 % 256, x / 65536 % 256, x / 16777216 % 256]

/-- MD5 digest of a byte list, as 16 bytes. -/
def md5Digest (msg : List Nat) : List Nat :=
  match (chunks64 (md5Pad msg)).foldl md5Chunk
      (0x67452301, 0xefcdab89, 0x98badcfe, 0x10325476) with
  | (a, b, c, d) => leBytes4 a ++ leBytes4 b ++ leBytes4 c ++ leBytes4 d

/-- Lower-case hexadecimal digit. -/
def hexDigit (n : Nat) : Char :=
  if n < 10 then Char.ofNat (48 + n) else Char.ofNat (87 + n)

/-- Two lower-case hex digits of a byte. -/
def byteHex (b : Nat) : List Char := [hexDigit (b / 16), hexDigit (b % 16)]

/-- MD5 digest of a byte list as a lower-case hex string. -/
def md5Hex (msg : List Nat) : String :=
  String.mk ((md5Digest msg).foldr (fun b acc => byteHex b ++ acc) [])

/-- UTF-8 encoding of one character, as bytes. -/
def charUtf8 (c : Char) : List Nat :=
  let n := c.toNat
  if n < 0x80 then [n]
  else if n < 0x800 then [0xC0 ||| (n >>> 6), 0x80 ||| (n &&& 0x3F)]
  else if n < 0x10000 then
    [0xE0 ||| (n >>> 12), 0x80 ||| ((n >>> 6) &&& 0x3F), 0x80 ||| (n &&& 0x3F)]
  else
    [0xF0 ||| (n >>> 18), 0x80 ||| ((n >>> 12) &&& 0x3F),
     0x80 ||| ((n >>> 6) &&& 0x3F), 0x80 ||| (n &&& 0x3F)]

/-- UTF-8 encoding of a string, as bytes (what `hash.update(string)` hashes). -/
def utf8Encode (s : String) : List Nat := s.data.foldr (fun c acc => charUtf8 c ++ acc) []

/-- The anchor hasher: `createHash('md5').update(value).digest('hex')`,
shared by every heading handler and by the table-of-contents extractor. -/
def anchorHash (s : String) : String := md5Hex (utf8Encode s)

/-!
## Data model

The node shape the handlers read (`contentful.RichTextContent`): a
`nodeType` tag, children in `content`, and — present only on some node
kinds at runtime — `value` and `marks`, so the latter two are `Option`.
`data` carries an optional `uri` (hyperlinks) and an optional embed
`target` (an Asset or an Article entry, with exactly the fields the
handlers access).
-/

/-- A style mark on a text run, e.g. `{type: "code"}`. -/
structure TextMark where
  type : String
deriving DecidableEq

/-- `file.details.image` of an Asset: pixel dimensions. -/
structure ImageSize where
  width : Nat
  height : Nat
deriving DecidableEq

/-- `file.details` of an Asset. -/
structure FileDetails where
  image : ImageSize
deriving DecidableEq

/-- `fields.file` of an Asset, with the fields the asset handler reads:
`file.url`, `file.details.image`, and `file.title` (the alt text). -/
structure AssetFile where
  url : String
  details : FileDetails
  title : String
deriving DecidableEq

/-- `fields` of an embedded Asset. -/
structure AssetFields where
  file : AssetFile
  description : Option String
deriving DecidableEq

/-- `sys` of a linked category reference: its id. -/
structure SysId where
  id : String
deriving DecidableEq

/-- `fields.category` of an Article entry. -/
structure CategoryRef where
  sys : SysId
deriving DecidableEq

/-- `fields` of an embedded Article entry. -/
structure EntryFields where
  title : Option String
  category : CategoryRef
  slug : String
deriving DecidableEq

/-- `sys` of an embedded Article entry. -/
structure EntrySys where
  createdAt : String
deriving DecidableEq

/-- `data.target` of an embed node: an Asset or an Article entry. -/
inductive Target where
  | assetT (fields : AssetFields)
  | entryT (fields : EntryFields) (sys : EntrySys)
deriving DecidableEq

/-- `data` of a node: optional hyperlink `uri`, optional embed `target`. -/
structure NodeData where
  uri : Option String
  target : Option Target
deriving DecidableEq

/-- A rich-text node as the handlers receive it. -/
inductive RichTextNode where
  | mk (nodeType : String) (content : List RichTextNode)
       (value : Option String) (marks : Option (List TextMark))
       (data : NodeData)

/-- The `nodeType` tag of a node. -/
def RichTextNode.nodeType : RichTextNode → String
  | .mk t _ _ _ _ => t

/-- The children of a node. -/
def RichTextNode.content : RichTextNode → List RichTextNode
  | .mk _ c _ _ _ => c

/-- The text value of a node (absent on non-text nodes). -/
def RichTextNode.value : RichTextNode → Option String
  | .mk _ _ v _ _ => v

/-- The style marks of a node (absent on non-text nodes). -/
def RichTextNode.marks : RichTextNode → Option (List TextMark)
  | .mk _ _ _ m _ => m

/-- The `data` object of a node. -/
def RichTextNode.data : RichTextNode → NodeData
  | .mk _ _ _ _ d => d

/-- `node.content?.slice(0, 1).shift()`: the first child, if any. -/
def firstChild (node : RichTextNode) : Option RichTextNode :=
  node.content.head?

/-- A category link entry of the caller-supplied mapping. -/
structure CategoryLink where
  id : String
  path : String
  title : String
  count : Nat
deriving DecidableEq

/-- `categories.reduce((acc, value) => ({...acc, [value.id]: value}), {})`:
the category map as a lookup, later entries overriding earlier ones. -/
def categoryMapOf (categories : List CategoryLink) : String → Option CategoryLink :=
  categories.foldl (fun acc v => fun k => if k = v.id then some v else acc k)
    (fun _ => none)

/-- JavaScript template-literal stringification of a possibly-undefined
string: `undefined` prints as `"undefined"`. -/
def jsTemplate (s : Option String) : String :=
  match s with
  | some v => v
  | none => "undefined"

/-!
## Link classifier

The hyperlink handler matches `node.data.uri` against the regular
expression `/\/youtu.be\/(.+)$/` (note the unescaped dot).  `youtuScan`
is that match: leftmost start position where the literal run
`/youtu` + any non-line-terminator + `be/` is followed by a nonempty
line-terminator-free suffix reaching the end of the string; the capture
is that suffix.
-/

/-- JavaScript line terminators, which `.` does not match. -/
def isLineTerminator (c : Char) : Bool :=
  c = '\n' || c = '\r' || c = Char.ofNat 0x2028 || c = Char.ofNat 0x2029

/-- Try to match `/\/youtu.be\/(.+)$/` at the start of `l`. -/
def youtuTryAt : List Char → Option (List Char)
  | '/' :: 'y' :: 'o' :: 'u' :: 't' :: 'u' :: d :: 'b' :: 'e' :: '/' :: rest =>
      if !isLineTerminator d && !rest.isEmpty && rest.all (fun ch => !isLineTerminator ch)
      then some rest else none
  | _ => none

/-- `uri.match(/\/youtu.be\/(.+)$/)`: capture of the leftmost match. -/
def youtuScan : List Char → Option (List Char)
  | [] => none
  | c :: rest =>
      match youtuTryAt (c :: rest) with
      | some cap => some cap
      | none => youtuScan rest

/-- Result of classifying a hyperlink target. -/
inductive LinkKind where
  | video (videoId : String)
  | generic
deriving DecidableEq

/-- The link classifier: video iff the pattern matches, with the captured
identifier; everything else is generic. -/
def classifyLink (uri : String) : LinkKind :=
  match youtuScan uri.data with
  | some cap => .video (String.mk cap)
  | none => .generic

/-!
## Output model and the render-node table
-/

/-- A runtime JavaScript error raised by a handler. -/
inductive RenderErr where
  | typeError
deriving DecidableEq

/-- Output nodes produced by the render table (React elements, abstracted
to their data). -/
inductive Output where
  | group (xs : List Output)
  | textRun (value : String) (marks : List TextMark)
  | headingEl (level : Nat) (anchor : String) (child : Output)
  | textParagraph (child : Output)
  | plainParagraph (child : Output)
  | codeBlock (child : Output)
  | imageBox (src : String) (width : Nat) (height : Nat) (alt : String)
             (caption : Option (Option String))
  | articleCard (title : String) (href : String) (date : String)
  | inlineEntryLink (href : String) (title : String)
  | youtubeEmbed (videoId : String)
  | extLink (href : String) (label : String)

/-- The heading handlers (`BLOCKS.HEADING_2` … `HEADING_6`): if the first
child is a text node with a defined value, emit a heading element carrying
`createHash('md5').update(value).digest('hex')` as its id; otherwise
return the children unattributed. -/
def renderHeading (lvl : Nat) (node : RichTextNode) (children : Output) : Output :=
  match firstChild node with
  | some c =>
      if c.nodeType = "text" then
        match c.value with
        | some v => .headingEl lvl (anchorHash v) children
        | none => children
      else children
  | none => children

/-- The `BLOCKS.PARAGRAPH` handler.  `content?.marks.find(x => x.type ===
'code')` throws a `TypeError` when the first child exists but has no
`marks` (a non-text inline node); with no first child both conditions are
falsy and the plain `<p>` branch is taken. -/
def renderParagraph (node : RichTextNode) (children : Output) :
    Except RenderErr Output :=
  match firstChild node with
  | none => .ok (.plainParagraph children)
  | some c =>
      match c.marks with
      | none => .error .typeError
      | some ms =>
          if ms.any (fun m => m.type = "code") then .ok (.codeBlock children)
          else if c.nodeType = "text" then .ok (.textParagraph children)
          else .ok (.plainParagraph children)

/-- The `BLOCKS.EMBEDDED_ASSET` handler: image from `fields.file` (URL
prefixed with `https:`, `details.image` dimensions, `file.title` alt);
a caption is rendered exactly when `fields.description !== ''`, and it
contains `fields.description` as-is (possibly undefined). -/
def renderEmbeddedAsset (node : RichTextNode) : Except RenderErr Output :=
  match node.data.target with
  | some (.assetT f) =>
      .ok (.imageBox ("https:" ++ f.file.url) f.file.details.image.width
        f.file.details.image.height f.file.title
        (if f.description ≠ some "" then some f.description else none))
  | _ => .error .typeError

/-- Href of an embedded entry: `` `${categoryMap[id]?.path}/${slug}` ``. -/
def entryHref (cmap : List CategoryLink) (f : EntryFields) : String :=
  jsTemplate ((categoryMapOf cmap f.category.sys.id).map CategoryLink.path) ++
    "/" ++ f.slug

/-- The `BLOCKS.EMBEDDED_ENTRY` handler: a summary card with
`fields.title ?? ''`, the resolved href, and the formatted `sys.createdAt`
(`fmt` is the external date formatter). -/
def renderEmbeddedEntryBlock (fmt : String → String) (cmap : List CategoryLink)
    (node : RichTextNode) : Except RenderErr Output :=
  match node.data.target with
  | some (.entryT f s) =>
      .ok (.articleCard (f.title.getD "") (entryHref cmap f) (fmt s.createdAt))
  | _ => .error .typeError

/-- The `INLINES.EMBEDDED_ENTRY` handler: an `<a>` to the resolved href
labeled `fields.title ?? ''`. -/
def renderEmbeddedEntryInline (cmap : List CategoryLink) (node : RichTextNode) :
    Except RenderErr Output :=
  match node.data.target with
  | some (.entryT f _) =>
      .ok (.inlineEntryLink (entryHref cmap f) (f.title.getD ""))
  | _ => .error .typeError

/-- The `INLINES.HYPERLINK` handler: with a string `uri`, a video match
yields a video embed keyed by the captured id, otherwise an external link
labeled `content?.slice(0,1).shift()?.value ?? uri`; without a string
`uri` (or wrong `nodeType`) the children are returned unwrapped. -/
def renderHyperlink (node : RichTextNode) (children : Output) : Output :=
  if node.nodeType = "hyperlink" then
    match node.data.uri with
    | some uri =>
        (match classifyLink uri with
         | .video vid => .youtubeEmbed vid
         | .generic =>
             .extLink uri (((firstChild node).bind RichTextNode.value).getD uri))
    | none => children
  else children

/-- Heading level of a `nodeType` tag, for the five heading keys of the
render table. -/
def headingLevel? (t : String) : Option Nat :=
  if t = "heading-2" then some 2
  else if t = "heading-3" then some 3
  else if t = "heading-4" then some 4
  else if t = "heading-5" then some 5
  else if t = "heading-6" then some 6
  else none

/-- The render-node dispatch table (`renderNode`): one handler per node
type; node types without a handler pass their children through. -/
def renderNodeTable (fmt : String → String) (cmap : List CategoryLink)
    (node : RichTextNode) (children : Output) : Except RenderErr Output :=
  match headingLevel? node.nodeType with
  | some lvl => .ok (renderHeading lvl node children)
  | none =>
      if node.nodeType = "paragraph" then renderParagraph node children
      else if node.nodeType = "embedded-asset-block" then renderEmbeddedAsset node
      else if node.nodeType = "embedded-entry-block" then
        renderEmbeddedEntryBlock fmt cmap node
      else if node.nodeType = "embedded-entry-inline" then
        renderEmbeddedEntryInline cmap node
      else if node.nodeType = "hyperlink" then .ok (renderHyperlink node children)
      else .ok children

mutual

/-- Depth-first rendering of a document tree: text runs render to text
output, every other node renders its children and applies the table; a
handler error aborts the render (the thrown `TypeError`). -/
def renderTree (fmt : String → String) (cmap : List CategoryLink) :
    RichTextNode → Except RenderErr Output
  | .mk t c v m d =>
      if t = "text" then .ok (.textRun (v.getD "") (m.getD []))
      else
        match renderChildren fmt cmap c with
        | .error e => .error e
        | .ok os => renderNodeTable fmt cmap (.mk t c v m d) (.group os)

/-- Render a list of sibling nodes, propagating the first error. -/
def renderChildren (fmt : String → String) (cmap : List CategoryLink) :
    List RichTextNode → Except RenderErr (List Output)
  | [] => .ok []
  | x :: xs =>
      match renderTree fmt cmap x with
      | .error e => .error e
      | .ok o =>
          match renderChildren fmt cmap xs with
          | .error e => .error e
          | .ok os => .ok (o :: os)

end

/-!
## Table-of-contents extractor
-/

/-- One table-of-contents entry: heading level, text, anchor. -/
structure TocEntry where
  level : Nat
  text : String
  anchor : String
deriving DecidableEq

mutual

/-- Modelled from the spec: the Table-of-Contents Extractor (the
`TableOfContents` component is not under `src/`).  Per §4.5 it scans the
document for heading nodes of levels 2–6, lists `{level, text, anchor}`
computed with the same Anchor Hasher as the render table, and skips
headings whose first child is not a text-run. -/
def tocOf : RichTextNode → List TocEntry
  | .mk t c _ _ _ =>
      match headingLevel? t with
      | some lvl =>
          match c.head? with
          | some child =>
              if child.nodeType = "text" then
                match child.value with
                | some v => [⟨lvl, v, anchorHash v⟩]
                | none => []
              else []
          | none => []
      | none => tocList c

/-- Table-of-contents entries of a list of sibling nodes, in order. -/
def tocList : List RichTextNode → List TocEntry
  | [] => []
  | x :: xs => tocOf x ++ tocList xs

end

/-!
## Node constructors and sample data
-/

/-- Node data with neither `uri` nor `target`. -/
def emptyData : NodeData := ⟨none, none⟩

/-- A plain text run: `{nodeType: 'text', value, marks: []}`. -/
def mkText (v : String) : RichTextNode :=
  .mk "text" [] (some v) (some []) emptyData

/-- A text run carrying style marks. -/
def mkMarkedText (v : String) (ms : List TextMark) : RichTextNode :=
  .mk "text" [] (some v) (some ms) emptyData

/-- An embedded-asset block node. -/
def mkAssetNode (url : String) (wd ht : Nat) (title : String)
    (desc : Option String) : RichTextNode :=
  .mk "embedded-asset-block" [] none none
    ⟨none, some (.assetT ⟨⟨url, ⟨⟨wd, ht⟩⟩, title⟩, desc⟩)⟩

/-- An embedded-entry block node. -/
def mkEntryBlock (f : EntryFields) (s : EntrySys) : RichTextNode :=
  .mk "embedded-entry-block" [] none none ⟨none, some (.entryT f s)⟩

/-- An embedded-entry inline node. -/
def mkEntryInline (f : EntryFields) (s : EntrySys) : RichTextNode :=
  .mk "embedded-entry-inline" [] none none ⟨none, some (.entryT f s)⟩

/-- A hyperlink node with the given `data.uri` and children. -/
def mkHyperlink (uri : Option String) (cs : List RichTextNode) : RichTextNode :=
  .mk "hyperlink" cs none none ⟨uri, none⟩

/-- A sample article-entry payload. -/
def sampleEntryFields : EntryFields := ⟨some "T", ⟨⟨"cat1"⟩⟩, "foo"⟩

/-- A sample entry `sys`. -/
def sampleEntrySys : EntrySys := ⟨"2024-01-01T00:00:00.000Z"⟩

/-- An inline embedded-entry node (a documented inline node shape: no
`value`, no `marks`). -/
def sampleInlineEntry : RichTextNode :=
  .mk "embedded-entry-inline" [] none none
    ⟨none, some (.entryT sampleEntryFields sampleEntrySys)⟩

/-- A well-typed paragraph whose first child is an inline embed. -/
def inlineFirstParagraph : RichTextNode :=
  .mk "paragraph" [sampleInlineEntry] none none emptyData

/-- A well-typed document containing `inlineFirstParagraph`. -/
def sampleBadDoc : RichTextNode :=
  .mk "document" [inlineFirstParagraph] none none emptyData

/-- Character-list test: does `p` start `l`? -/
def startsWithChars : List Char → List Char → Bool
  | [], _ => true
  | _ :: _, [] => false
  | p :: ps, c :: cs => p = c && startsWithChars ps cs

/-- Does the literal character run `/youtu.be/` (dot as a dot) occur in
`l`? -/
def hasYoutuBeLiteral : List Char → Bool
  | [] => false
  | c :: rest =>
      startsWithChars (String.data "/youtu.be/") (c :: rest) || hasYoutuBeLiteral rest

/-- The classification rule as the spec words it, for comparison with the
code's classifier: a URI is a video short-link when it carries the literal
host segment `/youtu.be/` (the specific video host) before the id. -/
def specVideoHostPattern (uri : String) : Bool := hasYoutuBeLiteral uri.data

/-!
## Helper lemmas
-/

theorem renderNodeTable_heading (fmt : String → String) (cmap : List CategoryLink)
    (t : String) (lvl : Nat) (c : List RichTextNode) (v : Option String)
    (m : Option (List TextMark)) (d : NodeData) (ch : Output)
    (h : headingLevel? t = some lvl) :
    renderNodeTable fmt cmap (.mk t c v m d) ch =
      .ok (renderHeading lvl (.mk t c v m d) ch) := by
  simp [renderNodeTable, RichTextNode.nodeType, h]

theorem renderHeading_text (lvl : Nat) (t : String) (s : String)
    (cs : List RichTextNode) (v : Option String) (m : Option (List TextMark))
    (d : NodeData) (ch : Output) :
    renderHeading lvl (.mk t (mkText s :: cs) v m d) ch =
      .headingEl lvl (anchorHash s) ch := by
  simp [renderHeading, firstChild, RichTextNode.content, mkText,
    RichTextNode.nodeType, RichTextNode.value]

theorem renderHeading_nonText (lvl : Nat) (t : String) (c0 : RichTextNode)
    (hc0 : c0.nodeType ≠ "text") (cs : List RichTextNode) (v : Option String)
    (m : Option (List TextMark)) (d : NodeData) (ch : Output) :
    renderHeading lvl (.mk t (c0 :: cs) v m d) ch = ch := by
  simp [renderHeading, firstChild, RichTextNode.content, hc0]

theorem renderHeading_noValue (lvl : Nat) (t : String) (cc : List RichTextNode)
    (mm : Option (List TextMark)) (dd : NodeData) (cs : List RichTextNode)
    (v : Option String) (m : Option (List TextMark)) (d : NodeData) (ch : Output) :
    renderHeading lvl (.mk t (RichTextNode.mk "text" cc none mm dd :: cs) v m d) ch
      = ch := by
  simp [renderHeading, firstChild, RichTextNode.content, RichTextNode.nodeType,
    RichTextNode.value]

theorem tocOf_heading_text (t : String) (lvl : Nat) (h : headingLevel? t = some lvl)
    (s : String) (cs : List RichTextNode) (v : Option String)
    (m : Option (List TextMark)) (d : NodeData) :
    tocOf (.mk t (mkText s :: cs) v m d) = [⟨lvl, s, anchorHash s⟩] := by
  simp [tocOf, h, mkText, RichTextNode.nodeType, RichTextNode.value]

theorem youtuTryAt_sound (l : List Char) (cap : List Char)
    (h : youtuTryAt l = some cap) :
    ∃ d, l = '/' :: 'y' :: 'o' :: 'u' :: 't' :: 'u' :: d :: 'b' :: 'e' :: '/' :: cap
      ∧ isLineTerminator d = false ∧ cap ≠ []
      ∧ cap.all (fun ch => !isLineTerminator ch) = true := by
  unfold youtuTryAt at h
  split at h
  case _ d rest =>
    split at h
    case isTrue hcond =>
      obtain ⟨⟨h1, h2⟩, h3⟩ :
          (!isLineTerminator d = true ∧ !rest.isEmpty = true) ∧
            rest.all (fun ch => !isLineTerminator ch) = true := by
        simpa [Bool.and_eq_true] using hcond
      cases h
      refine ⟨d, rfl, by simpa using h1, ?_, h3⟩
      intro hnil
      simp [hnil] at h2
    case isFalse => cases h
  case _ => cases h

theorem youtuScan_sound (l : List Char) (cap : List Char)
    (h : youtuScan l = some cap) :
    ∃ a d, l = a ++ '/' :: 'y' :: 'o' :: 'u' :: 't' :: 'u' :: d :: 'b' :: 'e' :: '/' :: cap
      ∧ isLineTerminator d = false ∧ cap ≠ []
      ∧ cap.all (fun ch => !isLineTerminator ch) = true := by
  induction l with
  | nil => simp [youtuScan] at h
  | cons c rest ih =>
      rw [youtuScan] at h
      cases hy : youtuTryAt (c :: rest) with
      | some cap' =>
          rw [hy] at h
          cases h
          obtain ⟨d, hshape, hd, hne, hall⟩ := youtuTryAt_sound _ _ hy
          exact ⟨[], d, by simpa using hshape, hd, hne, hall⟩
      | none =>
          rw [hy] at h
          obtain ⟨a, d, hshape, hd, hne, hall⟩ := ih h
          exact ⟨c :: a, d, by simp [hshape], hd, hne, hall⟩

theorem youtuTryAt_complete (d : Char) (x : Char) (xs : List Char)
    (hd : isLineTerminator d = false)
    (hall : (x :: xs).all (fun ch => !isLineTerminator ch) = true) :
    youtuTryAt
        ('/' :: 'y' :: 'o' :: 'u' :: 't' :: 'u' :: d :: 'b' :: 'e' :: '/' :: x :: xs)
      = some (x :: xs) := by
  simp [youtuTryAt, hd, hall]

theorem youtuScan_complete (a : List Char) (d : Char) (cap : List Char)
    (hd : isLineTerminator d = false) (hne : cap ≠ [])
    (hall : cap.all (fun ch => !isLineTerminator ch) = true) :
    ∃ cap', youtuScan
        (a ++ '/' :: 'y' :: 'o' :: 'u' :: 't' :: 'u' :: d :: 'b' :: 'e' :: '/' :: cap)
      = some cap' := by
  induction a with
  | nil =>
      cases cap with
      | nil => exact absurd rfl hne
      | cons x xs =>
          refine ⟨x :: xs, ?_⟩
          rw [List.nil_append, youtuScan, youtuTryAt_complete d x xs hd hall]
  | cons c a' ih =>
      cases hy : youtuTryAt
          (c :: (a' ++ '/' :: 'y' :: 'o' :: 'u' :: 't' :: 'u' :: d :: 'b' :: 'e'
            :: '/' :: cap)) with
      | some cap'' =>
          refine ⟨cap'', ?_⟩
          rw [List.cons_append, youtuScan, hy]
      | none =>
          obtain ⟨cap', h'⟩ := ih
          refine ⟨cap', ?_⟩
          rw [List.cons_append, youtuScan, hy]
          exact h'

theorem renderHyperlink_video (uri vid : String)
    (hvid : classifyLink uri = LinkKind.video vid) (cs : List RichTextNode)
    (ch : Output) :
    renderHyperlink (mkHyperlink (some uri) cs) ch = .youtubeEmbed vid := by
  simp [renderHyperlink, mkHyperlink, RichTextNode.nodeType, RichTextNode.data,
    hvid]

theorem renderEmbeddedAsset_eq (url : String) (wd ht : Nat) (title : String)
    (desc : Option String) :
    renderEmbeddedAsset (mkAssetNode url wd ht title desc) =
      .ok (.imageBox ("https:" ++ url) wd ht title
        (if desc ≠ some "" then some desc else none)) := by
  simp [renderEmbeddedAsset, mkAssetNode, RichTextNode.data]

theorem renderHyperlink_generic (uri : String)
    (hgen : classifyLink uri = LinkKind.generic) (cs : List RichTextNode)
    (ch : Output) :
    renderHyperlink (mkHyperlink (some uri) cs) ch =
      .extLink uri (((cs.head?).bind RichTextNode.value).getD uri) := by
  simp [renderHyperlink, mkHyperlink, RichTextNode.nodeType, RichTextNode.data,
    hgen, firstChild, RichTextNode.content]

/-!
## Claims
-/

/-- C1: anchor generation is deterministic — `anchorHash` yields the same
identifier on every call for the same string, and for a heading whose
first child is a text run both independent traversals, the render-node
table and the table-of-contents extractor, attach/list that identical
identifier `anchorHash s`. -/
theorem c1_anchor_determinism (fmt : String → String) (cmap : List CategoryLink)
    (s : String) (cs : List RichTextNode) (ch : Output) (t : String) (lvl : Nat)
    (h : headingLevel? t = some lvl) :
    anchorHash s = anchorHash s ∧
    renderNodeTable fmt cmap (.mk t (mkText s :: cs) none none emptyData) ch =
      .ok (.headingEl lvl (anchorHash s) ch) ∧
    tocOf (.mk t (mkText s :: cs) none none emptyData) =
      [⟨lvl, s, anchorHash s⟩] := by
  refine ⟨rfl, ?_, tocOf_heading_text t lvl h s cs none none emptyData⟩
  rw [renderNodeTable_heading fmt cmap t lvl _ none none emptyData ch h,
    renderHeading_text]

theorem c1_anchor_determinism_witness :
    anchorHash "Intro" = anchorHash "Intro" ∧
    renderNodeTable (fun x => x) []
        (.mk "heading-2" [mkText "Intro"] none none emptyData) (.group []) =
      .ok (.headingEl 2 (anchorHash "Intro") (.group [])) ∧
    tocOf (.mk "heading-2" [mkText "Intro"] none none emptyData) =
      [⟨2, "Intro", anchorHash "Intro"⟩] :=
  c1_anchor_determinism (fun x => x) [] "Intro" [] (.group []) "heading-2" 2 rfl

/-- C2: the claim says rendering never throws for well-typed documents,
but rendering the well-typed document whose single paragraph has an
inline embedded entry as first child aborts with a `TypeError`: the
paragraph handler evaluates `content?.marks.find(...)` and the inline
node has no `marks`. -/
theorem c2_inline_first_paragraph_throws :
    renderTree (fun x => x) [] sampleBadDoc = .error .typeError ∧
    renderParagraph inlineFirstParagraph (.group []) = .error .typeError :=
  ⟨rfl, rfl⟩

/-- C3: paragraph classification at the first child — a code-marked first
child gives a preformatted block and a plain text first child gives a
prose paragraph, in both cases regardless of later children; but a
non-text inline first child does not give the claimed generic paragraph:
the handler throws a `TypeError` (only a paragraph with no first child
reaches the generic branch). -/
theorem c3_paragraph_classification (cs : List RichTextNode) (ch : Output)
    (v : String) :
    renderParagraph (.mk "paragraph" (mkMarkedText v [⟨"code"⟩] :: cs) none none
        emptyData) ch = .ok (.codeBlock ch) ∧
    renderParagraph (.mk "paragraph" (mkText v :: cs) none none emptyData) ch =
      .ok (.textParagraph ch) ∧
    renderParagraph (.mk "paragraph" (sampleInlineEntry :: cs) none none
        emptyData) ch = .error .typeError ∧
    renderParagraph (.mk "paragraph" [] none none emptyData) ch =
      .ok (.plainParagraph ch) := by
  refine ⟨?_, ?_, ?_, ?_⟩ <;>
    simp [renderParagraph, firstChild, RichTextNode.content, mkMarkedText,
      mkText, sampleInlineEntry, RichTextNode.marks, RichTextNode.nodeType,
      TextMark.type]

/-- C4: for embedded entries (block and inline) the href is the path
looked up in the category map by the entry's category id, concatenated
with `/` and the slug; a missing id stringifies the undefined lookup, so
the href is `undefined/slug`, produced without throwing; concretely
`cat1 ↦ /tech` with slug `foo` gives `/tech/foo` and a missing id gives
`undefined/foo`. -/
theorem c4_entry_href (fmt : String → String) (cmap : List CategoryLink)
    (f : EntryFields) (s : EntrySys) :
    renderEmbeddedEntryBlock fmt cmap (mkEntryBlock f s) =
      .ok (.articleCard (f.title.getD "")
        (jsTemplate ((categoryMapOf cmap f.category.sys.id).map CategoryLink.path)
          ++ "/" ++ f.slug)
        (fmt s.createdAt)) ∧
    renderEmbeddedEntryInline cmap (mkEntryInline f s) =
      .ok (.inlineEntryLink
        (jsTemplate ((categoryMapOf cmap f.category.sys.id).map CategoryLink.path)
          ++ "/" ++ f.slug)
        (f.title.getD "")) ∧
    entryHref [⟨"cat1", "/tech", "Tech", 3⟩] ⟨some "T", ⟨⟨"cat1"⟩⟩, "foo"⟩ =
      "/tech/foo" ∧
    entryHref [⟨"cat1", "/tech", "Tech", 3⟩] ⟨some "T", ⟨⟨"missing"⟩⟩, "foo"⟩ =
      "undefined/foo" := by
  refine ⟨?_, ?_, by decide, by decide⟩ <;>
    simp [renderEmbeddedEntryBlock, renderEmbeddedEntryInline, mkEntryBlock,
      mkEntryInline, RichTextNode.data, entryHref]

/-- C5 counterexample: the video branch is not keyed to the youtu.be
host — `https://youtuxbe/abc` contains no literal `/youtu.be/` (and is
not on that host) yet the classifier returns a video with id `abc`,
because the dot in `/\/youtu.be\/(.+)$/` is unescaped; hence it is false
that every URI classified as video matches the specific-host pattern. -/
theorem c5_host_counterexample :
    classifyLink "https://youtuxbe/abc" = LinkKind.video "abc" ∧
    specVideoHostPattern "https://youtuxbe/abc" = false ∧
    ¬ (∀ uri : String, (∃ vid, classifyLink uri = LinkKind.video vid) →
        specVideoHostPattern uri = true) := by
  refine ⟨by decide, by decide, fun hclaim => ?_⟩
  have := hclaim "https://youtuxbe/abc" ⟨"abc", by decide⟩
  have hfalse : specVideoHostPattern "https://youtuxbe/abc" = false := by decide
  rw [this] at hfalse
  cases hfalse

/-- C5 amended: the classifier is total — every URI is exactly a video or
generic — and the video branch is taken exactly for URIs containing
`/youtu` + any single non-line-terminator + `be/` followed by a nonempty
line-terminator-free suffix running to the end of the URI (both
directions: every video-classified URI decomposes that way, and every URI
containing the pattern is video-classified); the hyperlink handler
produces the video embed from the extracted id whenever the classifier
says video; `https://youtu.be/abc123` is a video with id `abc123` and is
embedded as such (its link label ignored), and
`https://example.com/page` is generic. -/
theorem c5_amended_classifier :
    classifyLink "https://youtu.be/abc123" = LinkKind.video "abc123" ∧
    renderHyperlink (mkHyperlink (some "https://youtu.be/abc123")
        [mkText "Watch"]) (.group []) = .youtubeEmbed "abc123" ∧
    classifyLink "https://example.com/page" = LinkKind.generic ∧
    (∀ uri : String, classifyLink uri = LinkKind.generic ∨
      ∃ vid, classifyLink uri = LinkKind.video vid) ∧
    (∀ (uri vid : String) (cs : List RichTextNode) (ch : Output),
      classifyLink uri = LinkKind.video vid →
      renderHyperlink (mkHyperlink (some uri) cs) ch = .youtubeEmbed vid) ∧
    (∀ (uri : String) (vid : String), classifyLink uri = LinkKind.video vid →
      ∃ a d, uri.data =
          a ++ '/' :: 'y' :: 'o' :: 'u' :: 't' :: 'u' :: d :: 'b' :: 'e' :: '/'
            :: vid.data
        ∧ isLineTerminator d = false ∧ vid.data ≠ []
        ∧ vid.data.all (fun ch => !isLineTerminator ch) = true) ∧
    (∀ (uri : String) (a : List Char) (d : Char) (cap : List Char),
      uri.data = a ++ '/' :: 'y' :: 'o' :: 'u' :: 't' :: 'u' :: d :: 'b' :: 'e'
          :: '/' :: cap →
      isLineTerminator d = false → cap ≠ [] →
      cap.all (fun ch => !isLineTerminator ch) = true →
      ∃ vid, classifyLink uri = LinkKind.video vid) := by
  refine ⟨by decide, rfl, by decide, ?_, ?_, ?_, ?_⟩
  · intro uri
    unfold classifyLink
    cases youtuScan uri.data with
    | some cap => exact Or.inr ⟨String.mk cap, rfl⟩
    | none => exact Or.inl rfl
  · intro uri vid cs ch hvid
    exact renderHyperlink_video uri vid hvid cs ch
  · intro uri vid hvid
    unfold classifyLink at hvid
    cases hy : youtuScan uri.data with
    | some cap =>
        rw [hy] at hvid
        cases hvid
        exact youtuScan_sound _ _ hy
    | none => rw [hy] at hvid; cases hvid
  · intro uri a d cap heq hd hne hall
    obtain ⟨cap', hscan⟩ := youtuScan_complete a d cap hd hne hall
    refine ⟨String.mk cap', ?_⟩
    unfold classifyLink
    rw [heq, hscan]

theorem c5_amended_classifier_witness :
    renderHyperlink (mkHyperlink (some "https://youtu.be/xyz") [mkText "W"])
        (.group []) = .youtubeEmbed "xyz" ∧
    (∃ a d, (String.data "https://youtu.be/abc123") =
        a ++ '/' :: 'y' :: 'o' :: 'u' :: 't' :: 'u' :: d :: 'b' :: 'e' :: '/'
          :: (String.data "abc123")
      ∧ isLineTerminator d = false ∧ (String.data "abc123") ≠ []
      ∧ (String.data "abc123").all (fun ch => !isLineTerminator ch) = true) ∧
    (∃ vid, classifyLink "https://youtu.be/abc123" = LinkKind.video vid) :=
  ⟨c5_amended_classifier.2.2.2.2.1 "https://youtu.be/xyz" "xyz" [mkText "W"]
      (.group []) (by decide),
   c5_amended_classifier.2.2.2.2.2.1 "https://youtu.be/abc123" "abc123"
      (by decide),
   c5_amended_classifier.2.2.2.2.2.2 "https://youtu.be/abc123"
      (String.data "https:/") '.' (String.data "abc123") (by decide) (by decide)
      (by decide) (by decide)⟩

/-- C6: for every heading node of levels 2–6 whose first child is a text
run, the output heading element at the corresponding level carries
`anchorHash` of that text as its id; when the first child is not a text
run, no heading element (hence no anchor) is produced and the children
are returned unattributed. -/
theorem c6_heading_anchor (fmt : String → String) (cmap : List CategoryLink)
    (t : String) (lvl : Nat) (h : headingLevel? t = some lvl) (s : String)
    (cs : List RichTextNode) (ch : Output) (c0 : RichTextNode)
    (hc0 : c0.nodeType ≠ "text") :
    renderNodeTable fmt cmap (.mk t (mkText s :: cs) none none emptyData) ch =
      .ok (.headingEl lvl (anchorHash s) ch) ∧
    renderNodeTable fmt cmap (.mk t (c0 :: cs) none none emptyData) ch =
      .ok ch := by
  constructor
  · rw [renderNodeTable_heading fmt cmap t lvl _ none none emptyData ch h,
      renderHeading_text]
  · rw [renderNodeTable_heading fmt cmap t lvl _ none none emptyData ch h,
      renderHeading_nonText lvl t c0 hc0]

theorem c6_heading_anchor_witness :
    renderNodeTable (fun x => x) []
        (.mk "heading-3" [mkText "Title"] none none emptyData) (.group []) =
      .ok (.headingEl 3 (anchorHash "Title") (.group [])) ∧
    renderNodeTable (fun x => x) []
        (.mk "heading-3" [sampleInlineEntry] none none emptyData) (.group []) =
      .ok (.group []) :=
  c6_heading_anchor (fun x => x) [] "heading-3" 3 rfl "Title" [] (.group [])
    sampleInlineEntry (by decide)

/-- C7: for an embedded asset, an empty-string description produces no
caption and a non-empty description produces a caption containing exactly
that description; the image output carries `https:` + the file URL, the
image dimensions, and the file title. -/
theorem c7_asset_caption (url : String) (wd ht : Nat) (title : String)
    (desc : Option String) (s : String) (hd : desc = some s) (hne : s ≠ "") :
    renderEmbeddedAsset (mkAssetNode url wd ht title desc) =
      .ok (.imageBox ("https:" ++ url) wd ht title (some (some s))) ∧
    renderEmbeddedAsset (mkAssetNode url wd ht title (some "")) =
      .ok (.imageBox ("https:" ++ url) wd ht title none) := by
  subst hd
  constructor
  · rw [renderEmbeddedAsset_eq]
    simp [hne]
  · rw [renderEmbeddedAsset_eq]
    simp

theorem c7_asset_caption_witness :
    renderEmbeddedAsset (mkAssetNode "//img.example/p.png" 640 480 "T"
        (some "A photo")) =
      .ok (.imageBox ("https:" ++ "//img.example/p.png") 640 480 "T"
        (some (some "A photo"))) ∧
    renderEmbeddedAsset (mkAssetNode "//img.example/p.png" 640 480 "T"
        (some "")) =
      .ok (.imageBox ("https:" ++ "//img.example/p.png") 640 480 "T" none) :=
  c7_asset_caption "//img.example/p.png" 640 480 "T" (some "A photo") "A photo"
    rfl (by decide)

/-- C8: a generic hyperlink is labeled with the first text child's value;
with no child at all the raw URI is the label; and a hyperlink whose data
has no string `uri` renders its children unwrapped, with no link
element. -/
theorem c8_generic_link_label (uri : String)
    (hgen : classifyLink uri = LinkKind.generic) (v : String)
    (rest : List RichTextNode) (ch : Output) (cs : List RichTextNode)
    (tgt : Option Target) :
    renderHyperlink (mkHyperlink (some uri) (mkText v :: rest)) ch =
      .extLink uri v ∧
    renderHyperlink (mkHyperlink (some uri) []) ch = .extLink uri uri ∧
    renderHyperlink (.mk "hyperlink" cs none none ⟨none, tgt⟩) ch = ch := by
  refine ⟨?_, ?_, ?_⟩
  · rw [renderHyperlink_generic uri hgen]
    simp [mkText, RichTextNode.value]
  · rw [renderHyperlink_generic uri hgen]
    rfl
  · simp [renderHyperlink, RichTextNode.nodeType, RichTextNode.data]

theorem c8_generic_link_label_witness :
    renderHyperlink (mkHyperlink (some "https://example.com/page")
        [mkText "Click"]) (.group []) =
      .extLink "https://example.com/page" "Click" ∧
    renderHyperlink (mkHyperlink (some "https://example.com/page") [])
        (.group []) =
      .extLink "https://example.com/page" "https://example.com/page" ∧
    renderHyperlink (.mk "hyperlink" [] none none ⟨none, none⟩) (.group []) =
      .group [] :=
  c8_generic_link_label "https://example.com/page" (by decide) "Click" []
    (.group []) [] none

/-- C9: caption omission is decided by strict inequality with the empty
string only — an asset whose description field is absent still renders a
caption, whose content is the (undefined) description. -/
theorem c9_absent_description_caption (url : String) (wd ht : Nat)
    (title : String) :
    renderEmbeddedAsset (mkAssetNode url wd ht title none) =
      .ok (.imageBox ("https:" ++ url) wd ht title (some none)) := by
  rw [renderEmbeddedAsset_eq]
  simp

/-- C10: for a generic hyperlink with a string uri, the label comes from
the first child alone — a first child with no defined `value` makes the
raw URI the label even when later children are text runs; and a heading
whose first child is a text node with an undefined `value` is treated
like the non-text fallback: no anchor, children returned unattributed. -/
theorem c10_undefined_value_fallbacks (uri : String)
    (hgen : classifyLink uri = LinkKind.generic) (c0 : RichTextNode)
    (hv : c0.value = none) (rest : List RichTextNode) (ch : Output)
    (fmt : String → String) (cmap : List CategoryLink) (t : String) (lvl : Nat)
    (hl : headingLevel? t = some lvl) (cc : List RichTextNode)
    (mm : Option (List TextMark)) (dd : NodeData) (cs : List RichTextNode) :
    renderHyperlink (mkHyperlink (some uri) (c0 :: rest)) ch =
      .extLink uri uri ∧
    renderNodeTable fmt cmap
        (.mk t (RichTextNode.mk "text" cc none mm dd :: cs) none none emptyData)
        ch = .ok ch := by
  constructor
  · rw [renderHyperlink_generic uri hgen]
    simp [hv]
  · rw [renderNodeTable_heading fmt cmap t lvl _ none none emptyData ch hl,
      renderHeading_noValue]

theorem c10_undefined_value_fallbacks_witness :
    renderHyperlink (mkHyperlink (some "https://example.com/page")
        [sampleInlineEntry, mkText "Later"]) (.group []) =
      .extLink "https://example.com/page" "https://example.com/page" ∧
    renderNodeTable (fun x => x) []
        (.mk "heading-2" [RichTextNode.mk "text" [] none (some []) emptyData]
          none none emptyData)
        (.group []) = .ok (.group []) :=
  c10_undefined_value_fallbacks "https://example.com/page" (by decide)
    sampleInlineEntry (by decide) [mkText "Later"] (.group []) (fun x => x) []
    "heading-2" 2 rfl [] (some []) emptyData []
